import Mathlib

/-!
# Verification of the simplex-noise library (`src/simplex.py`)

Shallow embedding of the 2D/3D/4D simplex noise kernels, the octave
compositors and the affine range-scaling wrappers.

Modelling conventions:
* Python floats are modelled as elements of a `LinearOrderedField` `F`
  (instantiated with `ℝ` in the claim theorems); float literals are mapped
  to their intended exact values (`0.5 ↦ 1/2`, `0.6 ↦ 3/5`, ...).
* `math.sqrt(3.0)` and `math.sqrt(5.0)` are passed as explicit parameters
  `sqrt3`, `sqrt5`; the claim theorems instantiate them with `Real.sqrt 3`
  and `Real.sqrt 5`.
* Python `int(q)` on a float truncates toward zero: `pyInt`.
* Python `n & 255` on an arbitrary (possibly negative) int is two's
  complement bitwise and, i.e. `Int.land n 255`: `mask255`.
* Python list indexing `l[n]` is modelled with `List.getD l n 0`; the
  in-bounds claim (C8) shows the default is never taken for the indices
  the kernels produce.
* Python float division raises `ZeroDivisionError` when the divisor is
  zero.  The `_checked` variants of the octave compositors model this
  with `Option` (`none` = exception); the unsuffixed variants use the
  field's total division and agree with the checked ones whenever the
  divisor is nonzero.
-/

set_option maxRecDepth 100000

namespace SimplexNoise

/-- The gradients for 2D/3D noise (`_grad3` in the source). -/
def _grad3 : List (List ℤ) := [
  [1,1,0], [-1,1,0], [1,-1,0], [-1,-1,0],
  [1,0,1], [-1,0,1], [1,0,-1], [-1,0,-1],
  [0,1,1], [0,-1,1], [0,1,-1], [0,-1,-1]
]

/-- The gradients for 4D noise (`_grad4` in the source). -/
def _grad4 : List (List ℤ) := [
  [0,1,1,1],  [0,1,1,-1],  [0,1,-1,1],  [0,1,-1,-1],
  [0,-1,1,1], [0,-1,1,-1], [0,-1,-1,1], [0,-1,-1,-1],
  [1,0,1,1],  [1,0,1,-1],  [1,0,-1,1],  [1,0,-1,-1],
  [-1,0,1,1], [-1,0,1,-1], [-1,0,-1,1], [-1,0,-1,-1],
  [1,1,0,1],  [1,1,0,-1],  [1,-1,0,1],  [1,-1,0,-1],
  [-1,1,0,1], [-1,1,0,-1], [-1,-1,0,1], [-1,-1,0,-1],
  [1,1,1,0],  [1,1,-1,0],  [1,-1,1,0],  [1,-1,-1,0],
  [-1,1,1,0], [-1,1,-1,0], [-1,-1,1,0], [-1,-1,-1,0]
]

/-- Permutation table (`_perm` in the source).  The same 256-entry list is
repeated twice. -/
def _perm : List ℕ := [
  151,160,137,91,90,15,131,13,201,95,96,53,194,233,7,225,140,36,103,30,69,142,
  8,99,37,240,21,10,23,190,6,148,247,120,234,75,0,26,197,62,94,252,219,203,117,
  35,11,32,57,177,33,88,237,149,56,87,174,20,125,136,171,168,68,175,74,165,71,
  134,139,48,27,166,77,146,158,231,83,111,229,122,60,211,133,230,220,105,92,41,
  55,46,245,40,244,102,143,54,65,25,63,161,1,216,80,73,209,76,132,187,208,89,
  18,169,200,196,135,130,116,188,159,86,164,100,109,198,173,186,3,64,52,217,226,
  250,124,123,5,202,38,147,118,126,255,82,85,212,207,206,59,227,47,16,58,17,182,
  189,28,42,223,183,170,213,119,248,152,2,44,154,163,70,221,153,101,155,167,43,
  172,9,129,22,39,253,19,98,108,110,79,113,224,232,178,185,112,104,218,246,97,
  228,251,34,242,193,238,210,144,12,191,179,162,241,81,51,145,235,249,14,239,
  107,49,192,214,31,181,199,106,157,184,84,204,176,115,121,50,45,127,4,150,254,
  138,236,205,93,222,114,67,29,24,72,243,141,128,195,78,66,215,61,156,180,

  151,160,137,91,90,15,131,13,201,95,96,53,194,233,7,225,140,36,103,30,69,142,
  8,99,37,240,21,10,23,190,6,148,247,120,234,75,0,26,197,62,94,252,219,203,117,
  35,11,32,57,177,33,88,237,149,56,87,174,20,125,136,171,168,68,175,74,165,71,
  134,139,48,27,166,77,146,158,231,83,111,229,122,60,211,133,230,220,105,92,41,
  55,46,245,40,244,102,143,54,65,25,63,161,1,216,80,73,209,76,132,187,208,89,
  18,169,200,196,135,130,116,188,159,86,164,100,109,198,173,186,3,64,52,217,226,
  250,124,123,5,202,38,147,118,126,255,82,85,212,207,206,59,227,47,16,58,17,182,
  189,28,42,223,183,170,213,119,248,152,2,44,154,163,70,221,153,101,155,167,43,
  172,9,129,22,39,253,19,98,108,110,79,113,224,232,178,185,112,104,218,246,97,
  228,251,34,242,193,238,210,144,12,191,179,162,241,81,51,145,235,249,14,239,
  107,49,192,214,31,181,199,106,157,184,84,204,176,115,121,50,45,127,4,150,254,
  138,236,205,93,222,114,67,29,24,72,243,141,128,195,78,66,215,61,156,180
]

/-- Lookup table to traverse the simplex around a given point in 4D
(`_simplex` in the source). -/
def _simplex : List (List ℕ) := [
  [0,1,2,3],[0,1,3,2],[0,0,0,0],[0,2,3,1],[0,0,0,0],[0,0,0,0],[0,0,0,0],[1,2,3,0],
  [0,2,1,3],[0,0,0,0],[0,3,1,2],[0,3,2,1],[0,0,0,0],[0,0,0,0],[0,0,0,0],[1,3,2,0],
  [0,0,0,0],[0,0,0,0],[0,0,0,0],[0,0,0,0],[0,0,0,0],[0,0,0,0],[0,0,0,0],[0,0,0,0],
  [1,2,0,3],[0,0,0,0],[1,3,0,2],[0,0,0,0],[0,0,0,0],[0,0,0,0],[2,3,0,1],[2,3,1,0],
  [1,0,2,3],[1,0,3,2],[0,0,0,0],[0,0,0,0],[0,0,0,0],[2,0,3,1],[0,0,0,0],[2,1,3,0],
  [0,0,0,0],[0,0,0,0],[0,0,0,0],[0,0,0,0],[0,0,0,0],[0,0,0,0],[0,0,0,0],[0,0,0,0],
  [2,0,1,3],[0,0,0,0],[0,0,0,0],[0,0,0,0],[3,0,1,2],[3,0,2,1],[0,0,0,0],[3,1,2,0],
  [2,1,0,3],[0,0,0,0],[0,0,0,0],[0,0,0,0],[3,1,0,2],[0,0,0,0],[3,2,0,1],[3,2,1,0]
]

/-- `_perm[n]` (Python list indexing, default 0 when out of bounds; the
in-bounds claim shows the default is never taken by the kernels). -/
def permAt (n : ℕ) : ℕ := _perm.getD n 0

/-- Python `int(i) & 255`: bitwise and of an arbitrary integer with 255, as a
natural number index.  Python ints are two's complement, which is exactly
`Int.land`. -/
def mask255 (n : ℤ) : ℕ := (Int.land n 255).toNat

section Field

variable {F : Type} [LinearOrderedField F] [FloorRing F]

/-- Python `int(q)` on a float truncates toward zero: floor for nonnegative
arguments, ceiling for negative ones. -/
def pyInt (q : F) : ℤ := if 0 ≤ q then ⌊q⌋ else ⌈q⌉

/-- `dot2d(g, x, y)` from the source. -/
def dot2d (g : List ℤ) (x y : F) : F :=
  ((g.getD 0 0 : ℤ) : F) * x + ((g.getD 1 0 : ℤ) : F) * y

/-- `dot3d(g, x, y, z)` from the source. -/
def dot3d (g : List ℤ) (x y z : F) : F :=
  ((g.getD 0 0 : ℤ) : F) * x + ((g.getD 1 0 : ℤ) : F) * y +
    ((g.getD 2 0 : ℤ) : F) * z

/-- `dot4d(g, x, y, z, w)` from the source. -/
def dot4d (g : List ℤ) (x y z w : F) : F :=
  ((g.getD 0 0 : ℤ) : F) * x + ((g.getD 1 0 : ℤ) : F) * y +
    ((g.getD 2 0 : ℤ) : F) * z + ((g.getD 3 0 : ℤ) : F) * w

/-- Skew factor `F2 = 0.5*(math.sqrt(3.0)-1.0)`. -/
def skewF2 (sqrt3 : F) : F := 1/2 * (sqrt3 - 1)

/-- Unskew factor `G2 = (3.0-math.sqrt(3.0))/6.0`. -/
def unskewG2 (sqrt3 : F) : F := (3 - sqrt3) / 6

/-- Lattice cell index `i = int(x + s)` of `raw_noise_2d`, where
`s = (x+y)*F2`. -/
def cell2i (sqrt3 x y : F) : ℤ := pyInt (x + (x + y) * skewF2 sqrt3)

/-- Lattice cell index `j = int(y + s)` of `raw_noise_2d`. -/
def cell2j (sqrt3 x y : F) : ℤ := pyInt (y + (x + y) * skewF2 sqrt3)

/-- The hashed gradient index of a corner in `raw_noise_2d`:
`_perm[ii+di+_perm[jj+dj]] % 12` with `ii = int(i) & 255`,
`jj = int(j) & 255`. -/
def gradIndex2 (i j : ℤ) (di dj : ℕ) : ℕ :=
  permAt (mask255 i + di + permAt (mask255 j + dj)) % 12

/-- A corner contribution `n = (t*t)*(t*t) * dot` when `t ≥ 0`, else 0
(shared shape of the falloff computation in all three kernels). -/
def falloff (t contrib : F) : F :=
  if t < 0 then 0 else t * t * (t * t) * contrib

/-- `raw_noise_2d(x, y)` from the source (lines 171-241). -/
def raw_noise_2d (sqrt3 : F) (x y : F) : F :=
  let G2 := unskewG2 sqrt3
  let i := cell2i sqrt3 x y
  let j := cell2j sqrt3 x y
  let t := ((i + j : ℤ) : F) * G2
  let X0 := (i : F) - t
  let Y0 := (j : F) - t
  let x0 := x - X0
  let y0 := y - Y0
  let ij1 : ℕ × ℕ := if y0 < x0 then (1, 0) else (0, 1)
  let i1 := ij1.1
  let j1 := ij1.2
  let x1 := x0 - (i1 : F) + G2
  let y1 := y0 - (j1 : F) + G2
  let x2 := x0 - 1 + 2 * G2
  let y2 := y0 - 1 + 2 * G2
  let n0 := falloff (1/2 - x0*x0 - y0*y0) (dot2d (_grad3.getD (gradIndex2 i j 0 0) []) x0 y0)
  let n1 := falloff (1/2 - x1*x1 - y1*y1) (dot2d (_grad3.getD (gradIndex2 i j i1 j1) []) x1 y1)
  let n2 := falloff (1/2 - x2*x2 - y2*y2) (dot2d (_grad3.getD (gradIndex2 i j 1 1) []) x2 y2)
  70 * (n0 + n1 + n2)

/-- Lattice cell index `i = int(x + s)` of `raw_noise_3d`, where
`s = (x+y+z)*F3` and `F3 = 1.0/3.0`. -/
def cell3i (x y z : F) : ℤ := pyInt (x + (x + y + z) * (1/3))

/-- Lattice cell index `j = int(y + s)` of `raw_noise_3d`. -/
def cell3j (x y z : F) : ℤ := pyInt (y + (x + y + z) * (1/3))

/-- Lattice cell index `k = int(z + s)` of `raw_noise_3d`. -/
def cell3k (x y z : F) : ℤ := pyInt (z + (x + y + z) * (1/3))

/-- The hashed gradient index of a corner in `raw_noise_3d`:
`_perm[ii+di+_perm[jj+dj+_perm[kk+dk]]] % 12`. -/
def gradIndex3 (i j k : ℤ) (di dj dk : ℕ) : ℕ :=
  permAt (mask255 i + di + permAt (mask255 j + dj + permAt (mask255 k + dk))) % 12

/-- The simplex traversal order in `raw_noise_3d` (lines 272-315): the
integer offsets `(i1,j1,k1,i2,j2,k2)` of the second and third corners,
chosen by the six-way ranking of the fractional offsets. -/
def order3 (x0 y0 z0 : F) : ℕ × ℕ × ℕ × ℕ × ℕ × ℕ :=
  if y0 ≤ x0 then
    if z0 ≤ y0 then (1, 0, 0, 1, 1, 0)
    else if z0 ≤ x0 then (1, 0, 0, 1, 0, 1)
    else (0, 0, 1, 1, 0, 1)
  else
    if y0 < z0 then (0, 0, 1, 0, 1, 1)
    else if x0 < z0 then (0, 1, 0, 0, 1, 1)
    else (0, 1, 0, 1, 1, 0)

/-- `raw_noise_3d(x, y, z)` from the source (lines 243-371). -/
def raw_noise_3d (x y z : F) : F :=
  let G3 : F := 1/6
  let i := cell3i x y z
  let j := cell3j x y z
  let k := cell3k x y z
  let t := ((i + j + k : ℤ) : F) * G3
  let X0 := (i : F) - t
  let Y0 := (j : F) - t
  let Z0 := (k : F) - t
  let x0 := x - X0
  let y0 := y - Y0
  let z0 := z - Z0
  let o := order3 x0 y0 z0
  let i1 := o.1
  let j1 := o.2.1
  let k1 := o.2.2.1
  let i2 := o.2.2.2.1
  let j2 := o.2.2.2.2.1
  let k2 := o.2.2.2.2.2
  let x1 := x0 - (i1 : F) + G3
  let y1 := y0 - (j1 : F) + G3
  let z1 := z0 - (k1 : F) + G3
  let x2 := x0 - (i2 : F) + 2 * G3
  let y2 := y0 - (j2 : F) + 2 * G3
  let z2 := z0 - (k2 : F) + 2 * G3
  let x3 := x0 - 1 + 3 * G3
  let y3 := y0 - 1 + 3 * G3
  let z3 := z0 - 1 + 3 * G3
  let n0 := falloff (3/5 - x0*x0 - y0*y0 - z0*z0)
    (dot3d (_grad3.getD (gradIndex3 i j k 0 0 0) []) x0 y0 z0)
  let n1 := falloff (3/5 - x1*x1 - y1*y1 - z1*z1)
    (dot3d (_grad3.getD (gradIndex3 i j k i1 j1 k1) []) x1 y1 z1)
  let n2 := falloff (3/5 - x2*x2 - y2*y2 - z2*z2)
    (dot3d (_grad3.getD (gradIndex3 i j k i2 j2 k2) []) x2 y2 z2)
  let n3 := falloff (3/5 - x3*x3 - y3*y3 - z3*z3)
    (dot3d (_grad3.getD (gradIndex3 i j k 1 1 1) []) x3 y3 z3)
  32 * (n0 + n1 + n2 + n3)

/-- Skew factor `F4 = (math.sqrt(5.0)-1.0)/4.0`. -/
def skewF4 (sqrt5 : F) : F := (sqrt5 - 1) / 4

/-- Unskew factor `G4 = (5.0-math.sqrt(5.0))/20.0`. -/
def unskewG4 (sqrt5 : F) : F := (5 - sqrt5) / 20

/-- Lattice cell index `i = int(x + s)` of `raw_noise_4d`, where
`s = (x+y+z+w)*F4`. -/
def cell4i (sqrt5 x y z w : F) : ℤ := pyInt (x + (x + y + z + w) * skewF4 sqrt5)

/-- Lattice cell index `j = int(y + s)` of `raw_noise_4d`. -/
def cell4j (sqrt5 x y z w : F) : ℤ := pyInt (y + (x + y + z + w) * skewF4 sqrt5)

/-- Lattice cell index `k = int(z + s)` of `raw_noise_4d`. -/
def cell4k (sqrt5 x y z w : F) : ℤ := pyInt (z + (x + y + z + w) * skewF4 sqrt5)

/-- Lattice cell index `l = int(w + s)` of `raw_noise_4d`. -/
def cell4l (sqrt5 x y z w : F) : ℤ := pyInt (w + (x + y + z + w) * skewF4 sqrt5)

/-- The 6-bit comparison index `c = c1+c2+c3+c4+c5+c6` built in
`raw_noise_4d` (lines 408-414) from the six pairwise comparisons of the
fractional offsets. -/
def compIndex4 (x0 y0 z0 w0 : F) : ℕ :=
  (if y0 < x0 then 32 else 0) + (if z0 < x0 then 16 else 0) +
    (if z0 < y0 then 8 else 0) + (if w0 < x0 then 4 else 0) +
    (if w0 < y0 then 2 else 0) + (if w0 < z0 then 1 else 0)

/-- `_simplex[c]` (Python list indexing, default `[]` out of bounds). -/
def simplexRow (c : ℕ) : List ℕ := _simplex.getD c []

/-- The per-axis corner offset derived from the simplex traversal row:
`1 if _simplex[c][axis] >= threshold else 0`. -/
def simplexOffset (c axis threshold : ℕ) : ℕ :=
  if threshold ≤ (simplexRow c).getD axis 0 then 1 else 0

/-- The hashed gradient index of a corner in `raw_noise_4d`:
`_perm[ii+di+_perm[jj+dj+_perm[kk+dk+_perm[ll+dl]]]] % 32`. -/
def gradIndex4 (i j k l : ℤ) (di dj dk dl : ℕ) : ℕ :=
  permAt (mask255 i + di +
    permAt (mask255 j + dj + permAt (mask255 k + dk + permAt (mask255 l + dl)))) % 32

/-- `raw_noise_4d(x, y, z, w)` from the source (lines 373-505). -/
def raw_noise_4d (sqrt5 : F) (x y z w : F) : F :=
  let G4 := unskewG4 sqrt5
  let i := cell4i sqrt5 x y z w
  let j := cell4j sqrt5 x y z w
  let k := cell4k sqrt5 x y z w
  let l := cell4l sqrt5 x y z w
  let t := ((i + j + k + l : ℤ) : F) * G4
  let X0 := (i : F) - t
  let Y0 := (j : F) - t
  let Z0 := (k : F) - t
  let W0 := (l : F) - t
  let x0 := x - X0
  let y0 := y - Y0
  let z0 := z - Z0
  let w0 := w - W0
  let c := compIndex4 x0 y0 z0 w0
  let i1 := simplexOffset c 0 3
  let j1 := simplexOffset c 1 3
  let k1 := simplexOffset c 2 3
  let l1 := simplexOffset c 3 3
  let i2 := simplexOffset c 0 2
  let j2 := simplexOffset c 1 2
  let k2 := simplexOffset c 2 2
  let l2 := simplexOffset c 3 2
  let i3 := simplexOffset c 0 1
  let j3 := simplexOffset c 1 1
  let k3 := simplexOffset c 2 1
  let l3 := simplexOffset c 3 1
  let x1 := x0 - (i1 : F) + G4
  let y1 := y0 - (j1 : F) + G4
  let z1 := z0 - (k1 : F) + G4
  let w1 := w0 - (l1 : F) + G4
  let x2 := x0 - (i2 : F) + 2 * G4
  let y2 := y0 - (j2 : F) + 2 * G4
  let z2 := z0 - (k2 : F) + 2 * G4
  let w2 := w0 - (l2 : F) + 2 * G4
  let x3 := x0 - (i3 : F) + 3 * G4
  let y3 := y0 - (j3 : F) + 3 * G4
  let z3 := z0 - (k3 : F) + 3 * G4
  let w3 := w0 - (l3 : F) + 3 * G4
  let x4 := x0 - 1 + 4 * G4
  let y4 := y0 - 1 + 4 * G4
  let z4 := z0 - 1 + 4 * G4
  let w4 := w0 - 1 + 4 * G4
  let n0 := falloff (3/5 - x0*x0 - y0*y0 - z0*z0 - w0*w0)
    (dot4d (_grad4.getD (gradIndex4 i j k l 0 0 0 0) []) x0 y0 z0 w0)
  let n1 := falloff (3/5 - x1*x1 - y1*y1 - z1*z1 - w1*w1)
    (dot4d (_grad4.getD (gradIndex4 i j k l i1 j1 k1 l1) []) x1 y1 z1 w1)
  let n2 := falloff (3/5 - x2*x2 - y2*y2 - z2*z2 - w2*w2)
    (dot4d (_grad4.getD (gradIndex4 i j k l i2 j2 k2 l2) []) x2 y2 z2 w2)
  let n3 := falloff (3/5 - x3*x3 - y3*y3 - z3*z3 - w3*w3)
    (dot4d (_grad4.getD (gradIndex4 i j k l i3 j3 k3 l3) []) x3 y3 z3 w3)
  let n4 := falloff (3/5 - x4*x4 - y4*y4 - z4*z4 - w4*w4)
    (dot4d (_grad4.getD (gradIndex4 i j k l 1 1 1 1) []) x4 y4 z4 w4)
  27 * (n0 + n1 + n2 + n3 + n4)

/-- The loop of `octave_noise_2d` (lines 58-62): `n` remaining iterations,
current `frequency` and `amplitude`, accumulators `total` and
`maxAmplitude`; returns the final `(total, maxAmplitude)`. -/
def octaveLoop2 (sqrt3 persistence x y : F) :
    ℕ → F → F → F → F → F × F
  | 0, _, _, total, maxAmplitude => (total, maxAmplitude)
  | n + 1, frequency, amplitude, total, maxAmplitude =>
      octaveLoop2 sqrt3 persistence x y n (frequency * 2)
        (amplitude * persistence)
        (total + raw_noise_2d sqrt3 (x * frequency) (y * frequency) * amplitude)
        (maxAmplitude + amplitude)

/-- The loop of `octave_noise_3d` (lines 81-87). -/
def octaveLoop3 (persistence x y z : F) :
    ℕ → F → F → F → F → F × F
  | 0, _, _, total, maxAmplitude => (total, maxAmplitude)
  | n + 1, frequency, amplitude, total, maxAmplitude =>
      octaveLoop3 persistence x y z n (frequency * 2)
        (amplitude * persistence)
        (total +
          raw_noise_3d (x * frequency) (y * frequency) (z * frequency) * amplitude)
        (maxAmplitude + amplitude)

/-- The loop of `octave_noise_4d` (lines 106-113). -/
def octaveLoop4 (sqrt5 persistence x y z w : F) :
    ℕ → F → F → F → F → F × F
  | 0, _, _, total, maxAmplitude => (total, maxAmplitude)
  | n + 1, frequency, amplitude, total, maxAmplitude =>
      octaveLoop4 sqrt5 persistence x y z w n (frequency * 2)
        (amplitude * persistence)
        (total +
          raw_noise_4d sqrt5 (x * frequency) (y * frequency) (z * frequency)
            (w * frequency) * amplitude)
        (maxAmplitude + amplitude)

/-- `octave_noise_2d(octaves, persistence, scale, x, y)` from the source
(lines 43-64).  `range(octaves)` runs `octaves.toNat` iterations; the final
division is the field's total division (see `octave_noise_2d_checked` for
the Python division-by-zero behaviour). -/
def octave_noise_2d (sqrt3 : F) (octaves : ℤ) (persistence scale x y : F) : F :=
  let r := octaveLoop2 sqrt3 persistence x y octaves.toNat scale 1 0 0
  r.1 / r.2

/-- `octave_noise_3d(octaves, persistence, scale, x, y, z)` (lines 66-89). -/
def octave_noise_3d (octaves : ℤ) (persistence scale x y z : F) : F :=
  let r := octaveLoop3 persistence x y z octaves.toNat scale 1 0 0
  r.1 / r.2

/-- `octave_noise_4d(octaves, persistence, scale, x, y, z, w)`
(lines 91-115). -/
def octave_noise_4d (sqrt5 : F) (octaves : ℤ) (persistence scale x y z w : F) : F :=
  let r := octaveLoop4 sqrt5 persistence x y z w octaves.toNat scale 1 0 0
  r.1 / r.2

/-- `octave_noise_2d` with Python's division semantics: float division by
zero raises `ZeroDivisionError`, modelled as `none`. -/
def octave_noise_2d_checked (sqrt3 : F) (octaves : ℤ)
    (persistence scale x y : F) : Option F :=
  let r := octaveLoop2 sqrt3 persistence x y octaves.toNat scale 1 0 0
  if r.2 = 0 then none else some (r.1 / r.2)

/-- `octave_noise_3d` with Python's division semantics. -/
def octave_noise_3d_checked (octaves : ℤ)
    (persistence scale x y z : F) : Option F :=
  let r := octaveLoop3 persistence x y z octaves.toNat scale 1 0 0
  if r.2 = 0 then none else some (r.1 / r.2)

/-- `octave_noise_4d` with Python's division semantics. -/
def octave_noise_4d_checked (sqrt5 : F) (octaves : ℤ)
    (persistence scale x y z w : F) : Option F :=
  let r := octaveLoop4 sqrt5 persistence x y z w octaves.toNat scale 1 0 0
  if r.2 = 0 then none else some (r.1 / r.2)

/-- `scaled_octave_noise_2d(octaves, persistence, scale, loBound, hiBound, x, y)`
(lines 117-124). -/
def scaled_octave_noise_2d (sqrt3 : F) (octaves : ℤ)
    (persistence scale loBound hiBound x y : F) : F :=
  octave_noise_2d sqrt3 octaves persistence scale x y *
      (hiBound - loBound) / 2 +
    (hiBound + loBound) / 2

/-- `scaled_octave_noise_3d(...)` (lines 126-133). -/
def scaled_octave_noise_3d (octaves : ℤ)
    (persistence scale loBound hiBound x y z : F) : F :=
  octave_noise_3d octaves persistence scale x y z *
      (hiBound - loBound) / 2 +
    (hiBound + loBound) / 2

/-- `scaled_octave_noise_4d(...)` (lines 135-142). -/
def scaled_octave_noise_4d (sqrt5 : F) (octaves : ℤ)
    (persistence scale loBound hiBound x y z w : F) : F :=
  octave_noise_4d sqrt5 octaves persistence scale x y z w *
      (hiBound - loBound) / 2 +
    (hiBound + loBound) / 2

/-- `scaled_octave_noise_2d` on top of the checked compositor: the
exception from the inner call propagates. -/
def scaled_octave_noise_2d_checked (sqrt3 : F) (octaves : ℤ)
    (persistence scale loBound hiBound x y : F) : Option F :=
  (octave_noise_2d_checked sqrt3 octaves persistence scale x y).map
    (fun v => v * (hiBound - loBound) / 2 + (hiBound + loBound) / 2)

/-- `scaled_octave_noise_3d` on top of the checked compositor. -/
def scaled_octave_noise_3d_checked (octaves : ℤ)
    (persistence scale loBound hiBound x y z : F) : Option F :=
  (octave_noise_3d_checked octaves persistence scale x y z).map
    (fun v => v * (hiBound - loBound) / 2 + (hiBound + loBound) / 2)

/-- `scaled_octave_noise_4d` on top of the checked compositor. -/
def scaled_octave_noise_4d_checked (sqrt5 : F) (octaves : ℤ)
    (persistence scale loBound hiBound x y z w : F) : Option F :=
  (octave_noise_4d_checked sqrt5 octaves persistence scale x y z w).map
    (fun v => v * (hiBound - loBound) / 2 + (hiBound + loBound) / 2)

/-- `scaled_raw_noise_2d(loBound, hiBound, x, y)` (lines 144-151). -/
def scaled_raw_noise_2d (sqrt3 : F) (loBound hiBound x y : F) : F :=
  raw_noise_2d sqrt3 x y * (hiBound - loBound) / 2 + (hiBound + loBound) / 2

/-- `scaled_raw_noise_3d(loBound, hiBound, x, y, z)` (lines 153-160). -/
def scaled_raw_noise_3d (loBound hiBound x y z : F) : F :=
  raw_noise_3d x y z * (hiBound - loBound) / 2 + (hiBound + loBound) / 2

/-- `scaled_raw_noise_4d(loBound, hiBound, x, y, z, w)` (lines 162-169). -/
def scaled_raw_noise_4d (sqrt5 : F) (loBound hiBound x y z w : F) : F :=
  raw_noise_4d sqrt5 x y z w * (hiBound - loBound) / 2 + (hiBound + loBound) / 2

end Field

/-! ## Helper lemmas -/

theorem perm_entries_le : ∀ e ∈ _perm, e ≤ 255 := by decide

theorem perm_length : _perm.length = 512 := rfl

theorem permAt_le (idx : ℕ) : permAt idx ≤ 255 := by
  unfold permAt
  rcases h : _perm[idx]? with _ | a
  · simp [List.getD_eq_getElem?_getD, h]
  · have ha : a ∈ _perm := by
      have := List.getElem?_mem h
      exact this
    simp only [List.getD_eq_getElem?_getD, h, Option.getD_some]
    exact perm_entries_le a ha

theorem ldiff_le_255 (m : ℕ) : Nat.ldiff 255 m ≤ 255 := by
  have h : Nat.ldiff 255 m < 2 ^ 8 := by
    apply Nat.lt_pow_two_of_testBit
    intro i hi
    rw [Nat.testBit_ldiff]
    have h255 : (255 : ℕ) < 2 ^ i :=
      lt_of_lt_of_le (by norm_num) (Nat.pow_le_pow_right (by norm_num) hi)
    simp [Nat.testBit_lt_two_pow h255]
  omega

theorem mask255_le (n : ℤ) : mask255 n ≤ 255 := by
  unfold mask255
  cases n with
  | ofNat m =>
      have h : Int.land (Int.ofNat m) 255 = Int.ofNat (m &&& 255) := rfl
      rw [h]
      simpa using Nat.and_le_right
  | negSucc m =>
      have h : Int.land (Int.negSucc m) 255 = Int.ofNat (Nat.ldiff 255 m) := rfl
      rw [h]
      simpa using ldiff_le_255 m

theorem pyInt_of_nonneg {F : Type} [LinearOrderedField F] [FloorRing F]
    {q : F} (h : 0 ≤ q) : pyInt q = ⌊q⌋ := if_pos h

theorem pyInt_of_neg {F : Type} [LinearOrderedField F] [FloorRing F]
    {q : F} (h : q < 0) : pyInt q = ⌈q⌉ := if_neg (not_le.mpr h)

theorem octaveLoop2_spec {F : Type} [LinearOrderedField F] [FloorRing F]
    (sqrt3 p x y : F) (n : ℕ) :
    ∀ freq amp total maxAmp : F,
      octaveLoop2 sqrt3 p x y n freq amp total maxAmp =
        (total + ∑ i ∈ Finset.range n,
            amp * p ^ i *
              raw_noise_2d sqrt3 (x * (freq * 2 ^ i)) (y * (freq * 2 ^ i)),
         maxAmp + amp * ∑ i ∈ Finset.range n, p ^ i) := by
  induction n with
  | zero => intro freq amp total maxAmp; simp [octaveLoop2]
  | succ m ih =>
      intro freq amp total maxAmp
      rw [octaveLoop2, ih]
      rw [Prod.mk.injEq]
      constructor
      · rw [Finset.sum_range_succ']
        have hcongr :
            ∀ i ∈ Finset.range m,
              amp * p ^ (i + 1) *
                  raw_noise_2d sqrt3 (x * (freq * 2 ^ (i + 1)))
                    (y * (freq * 2 ^ (i + 1))) =
                amp * p * p ^ i *
                  raw_noise_2d sqrt3 (x * (freq * 2 * 2 ^ i))
                    (y * (freq * 2 * 2 ^ i)) := by
          intro i _
          have harg : freq * 2 ^ (i + 1) = freq * 2 * 2 ^ i := by ring
          rw [harg, pow_succ]
          ring
        rw [Finset.sum_congr rfl hcongr]
        simp only [pow_zero, mul_one]
        ring
      · rw [Finset.sum_range_succ']
        simp only [pow_zero, pow_succ]
        rw [show (∑ i ∈ Finset.range m, p ^ i * p) =
              (∑ i ∈ Finset.range m, p ^ i) * p from (Finset.sum_mul ..).symm]
        ring

theorem octaveLoop3_spec {F : Type} [LinearOrderedField F] [FloorRing F]
    (p x y z : F) (n : ℕ) :
    ∀ freq amp total maxAmp : F,
      octaveLoop3 p x y z n freq amp total maxAmp =
        (total + ∑ i ∈ Finset.range n,
            amp * p ^ i *
              raw_noise_3d (x * (freq * 2 ^ i)) (y * (freq * 2 ^ i))
                (z * (freq * 2 ^ i)),
         maxAmp + amp * ∑ i ∈ Finset.range n, p ^ i) := by
  induction n with
  | zero => intro freq amp total maxAmp; simp [octaveLoop3]
  | succ m ih =>
      intro freq amp total maxAmp
      rw [octaveLoop3, ih]
      rw [Prod.mk.injEq]
      constructor
      · rw [Finset.sum_range_succ']
        have hcongr :
            ∀ i ∈ Finset.range m,
              amp * p ^ (i + 1) *
                  raw_noise_3d (x * (freq * 2 ^ (i + 1)))
                    (y * (freq * 2 ^ (i + 1))) (z * (freq * 2 ^ (i + 1))) =
                amp * p * p ^ i *
                  raw_noise_3d (x * (freq * 2 * 2 ^ i))
                    (y * (freq * 2 * 2 ^ i)) (z * (freq * 2 * 2 ^ i)) := by
          intro i _
          have harg : freq * 2 ^ (i + 1) = freq * 2 * 2 ^ i := by ring
          rw [harg, pow_succ]
          ring
        rw [Finset.sum_congr rfl hcongr]
        simp only [pow_zero, mul_one]
        ring
      · rw [Finset.sum_range_succ']
        simp only [pow_zero, pow_succ]
        rw [show (∑ i ∈ Finset.range m, p ^ i * p) =
              (∑ i ∈ Finset.range m, p ^ i) * p from (Finset.sum_mul ..).symm]
        ring

theorem octaveLoop4_spec {F : Type} [LinearOrderedField F] [FloorRing F]
    (sqrt5 p x y z w : F) (n : ℕ) :
    ∀ freq amp total maxAmp : F,
      octaveLoop4 sqrt5 p x y z w n freq amp total maxAmp =
        (total + ∑ i ∈ Finset.range n,
            amp * p ^ i *
              raw_noise_4d sqrt5 (x * (freq * 2 ^ i)) (y * (freq * 2 ^ i))
                (z * (freq * 2 ^ i)) (w * (freq * 2 ^ i)),
         maxAmp + amp * ∑ i ∈ Finset.range n, p ^ i) := by
  induction n with
  | zero => intro freq amp total maxAmp; simp [octaveLoop4]
  | succ m ih =>
      intro freq amp total maxAmp
      rw [octaveLoop4, ih]
      rw [Prod.mk.injEq]
      constructor
      · rw [Finset.sum_range_succ']
        have hcongr :
            ∀ i ∈ Finset.range m,
              amp * p ^ (i + 1) *
                  raw_noise_4d sqrt5 (x * (freq * 2 ^ (i + 1)))
                    (y * (freq * 2 ^ (i + 1))) (z * (freq * 2 ^ (i + 1)))
                    (w * (freq * 2 ^ (i + 1))) =
                amp * p * p ^ i *
                  raw_noise_4d sqrt5 (x * (freq * 2 * 2 ^ i))
                    (y * (freq * 2 * 2 ^ i)) (z * (freq * 2 * 2 ^ i))
                    (w * (freq * 2 * 2 ^ i)) := by
          intro i _
          have harg : freq * 2 ^ (i + 1) = freq * 2 * 2 ^ i := by ring
          rw [harg, pow_succ]
          ring
        rw [Finset.sum_congr rfl hcongr]
        simp only [pow_zero, mul_one]
        ring
      · rw [Finset.sum_range_succ']
        simp only [pow_zero, pow_succ]
        rw [show (∑ i ∈ Finset.range m, p ^ i * p) =
              (∑ i ∈ Finset.range m, p ^ i) * p from (Finset.sum_mul ..).symm]
        ring

/-! ## Claim theorems -/

/-- C3: `scaled_raw_noise_2d(lo, hi, x, y)` equals exactly
`r * (hi - lo) / 2 + (hi + lo) / 2` with `r = raw_noise_2d(x, y)`, using the
same arithmetic; analogously for the 3D and 4D scaled raw variants and for
the scaled octave variants applied to the corresponding octave compositor
output. -/
theorem claim_C3_range_remap :
    (∀ lo hi x y : ℝ,
      scaled_raw_noise_2d (Real.sqrt 3) lo hi x y =
        raw_noise_2d (Real.sqrt 3) x y * (hi - lo) / 2 + (hi + lo) / 2) ∧
    (∀ lo hi x y z : ℝ,
      scaled_raw_noise_3d lo hi x y z =
        raw_noise_3d x y z * (hi - lo) / 2 + (hi + lo) / 2) ∧
    (∀ lo hi x y z w : ℝ,
      scaled_raw_noise_4d (Real.sqrt 5) lo hi x y z w =
        raw_noise_4d (Real.sqrt 5) x y z w * (hi - lo) / 2 + (hi + lo) / 2) ∧
    (∀ (oct : ℤ) (p s lo hi x y : ℝ),
      scaled_octave_noise_2d (Real.sqrt 3) oct p s lo hi x y =
        octave_noise_2d (Real.sqrt 3) oct p s x y * (hi - lo) / 2 + (hi + lo) / 2) ∧
    (∀ (oct : ℤ) (p s lo hi x y z : ℝ),
      scaled_octave_noise_3d oct p s lo hi x y z =
        octave_noise_3d oct p s x y z * (hi - lo) / 2 + (hi + lo) / 2) ∧
    (∀ (oct : ℤ) (p s lo hi x y z w : ℝ),
      scaled_octave_noise_4d (Real.sqrt 5) oct p s lo hi x y z w =
        octave_noise_4d (Real.sqrt 5) oct p s x y z w * (hi - lo) / 2 + (hi + lo) / 2) :=
  ⟨fun _ _ _ _ => rfl, fun _ _ _ _ _ => rfl, fun _ _ _ _ _ _ => rfl,
   fun _ _ _ _ _ _ _ => rfl, fun _ _ _ _ _ _ _ _ => rfl,
   fun _ _ _ _ _ _ _ _ _ => rfl⟩

/-- C4: with a single octave, the octave compositors reduce exactly to the
raw kernel at the scaled coordinates: `octave_noise_2d(1, p, s, x, y) =
raw_noise_2d(x*s, y*s)` for every persistence `p` and scale `s`, and
analogously in 3D and 4D. -/
theorem claim_C4_single_octave :
    (∀ p s x y : ℝ,
      octave_noise_2d (Real.sqrt 3) 1 p s x y =
        raw_noise_2d (Real.sqrt 3) (x * s) (y * s)) ∧
    (∀ p s x y z : ℝ,
      octave_noise_3d 1 p s x y z = raw_noise_3d (x * s) (y * s) (z * s)) ∧
    (∀ p s x y z w : ℝ,
      octave_noise_4d (Real.sqrt 5) 1 p s x y z w =
        raw_noise_4d (Real.sqrt 5) (x * s) (y * s) (z * s) (w * s)) := by
  refine ⟨fun p s x y => ?_, fun p s x y z => ?_, fun p s x y z w => ?_⟩ <;>
    simp [octave_noise_2d, octave_noise_3d, octave_noise_4d, octaveLoop2,
      octaveLoop3, octaveLoop4]

theorem sqrt3_bounds : 1 < Real.sqrt 3 ∧ Real.sqrt 3 < 2 := by
  have h2 : Real.sqrt 3 ^ 2 = 3 := Real.sq_sqrt (by norm_num)
  have h0 : 0 ≤ Real.sqrt 3 := Real.sqrt_nonneg 3
  constructor <;> nlinarith

/-- C1 counterexample: at the input `(x, y) = (-1/2, 0)` the 2D kernel's
cell index `i` is 0, while the floor of the skewed coordinate
`x + (x + y) * F2` is -1: the conversion truncates toward zero instead of
flooring. -/
theorem claim_C1_counterexample :
    cell2i (Real.sqrt 3) (-(1/2)) 0 = 0 ∧
      ⌊(-(1/2) : ℝ) + (-(1/2) + 0) * skewF2 (Real.sqrt 3)⌋ = -1 := by
  obtain ⟨h1, h2⟩ := sqrt3_bounds
  set q : ℝ := (-(1/2) : ℝ) + (-(1/2) + 0) * skewF2 (Real.sqrt 3) with hq
  have hval : q = -(1/2) - (Real.sqrt 3 - 1) / 4 := by
    rw [hq]; unfold skewF2; ring
  have hlo : (-1 : ℝ) < q := by rw [hval]; linarith
  have hhi : q < 0 := by rw [hval]; linarith
  constructor
  · rw [show cell2i (Real.sqrt 3) (-(1/2)) 0 = pyInt q from rfl,
      pyInt_of_neg hhi]
    rw [Int.ceil_eq_iff]
    constructor
    · push_cast
      linarith
    · push_cast
      linarith
  · rw [Int.floor_eq_iff]
    constructor
    · push_cast
      linarith
    · push_cast
      linarith

/-- C1 amended: in every raw noise kernel the lattice cell indices are
obtained from the skewed coordinates by Python `int()` conversion, which
truncates toward zero: it agrees with the floor for nonnegative skewed
coordinates but equals the ceiling for negative ones (so a skewed
coordinate of -0.3 yields cell index 0, not -1). -/
theorem claim_C1_amended :
    (∀ q : ℝ, 0 ≤ q → pyInt q = ⌊q⌋) ∧
    (∀ q : ℝ, q < 0 → pyInt q = ⌈q⌉) ∧
    (∀ x y : ℝ,
      cell2i (Real.sqrt 3) x y = pyInt (x + (x + y) * skewF2 (Real.sqrt 3)) ∧
      cell2j (Real.sqrt 3) x y = pyInt (y + (x + y) * skewF2 (Real.sqrt 3))) ∧
    (∀ x y z : ℝ,
      cell3i x y z = pyInt (x + (x + y + z) * (1/3)) ∧
      cell3j x y z = pyInt (y + (x + y + z) * (1/3)) ∧
      cell3k x y z = pyInt (z + (x + y + z) * (1/3))) ∧
    (∀ x y z w : ℝ,
      cell4i (Real.sqrt 5) x y z w =
        pyInt (x + (x + y + z + w) * skewF4 (Real.sqrt 5)) ∧
      cell4j (Real.sqrt 5) x y z w =
        pyInt (y + (x + y + z + w) * skewF4 (Real.sqrt 5)) ∧
      cell4k (Real.sqrt 5) x y z w =
        pyInt (z + (x + y + z + w) * skewF4 (Real.sqrt 5)) ∧
      cell4l (Real.sqrt 5) x y z w =
        pyInt (w + (x + y + z + w) * skewF4 (Real.sqrt 5))) :=
  ⟨fun _ h => pyInt_of_nonneg h, fun _ h => pyInt_of_neg h,
   fun _ _ => ⟨rfl, rfl⟩, fun _ _ _ => ⟨rfl, rfl, rfl⟩,
   fun _ _ _ _ => ⟨rfl, rfl, rfl, rfl⟩⟩

/-- C1 amended witness: the truncating conversion evaluated on a
nonnegative and on a negative input. -/
theorem claim_C1_amended_witness :
    (0 : ℝ) ≤ 1 ∧ pyInt (1 : ℝ) = ⌊(1 : ℝ)⌋ ∧
      (-1 : ℝ) < 0 ∧ pyInt (-1 : ℝ) = ⌈(-1 : ℝ)⌉ :=
  ⟨by norm_num, claim_C1_amended.1 1 (by norm_num), by norm_num,
   claim_C1_amended.2.1 (-1) (by norm_num)⟩

/-- C2: for `octaves ≥ 1` the octave compositors compute exactly the
normalized geometric sum of raw-kernel evaluations: the total is the sum
over `i < octaves` of `persistence^i * raw_kernel(coords * scale * 2^i)`
and the result is that total divided by the sum of `persistence^i`;
analogously in 3D and 4D. -/
theorem claim_C2_octave_formula :
    ∀ octaves : ℤ, 1 ≤ octaves → ∀ p s x y z w : ℝ,
      (octave_noise_2d (Real.sqrt 3) octaves p s x y =
        (∑ i ∈ Finset.range octaves.toNat,
            p ^ i * raw_noise_2d (Real.sqrt 3) (x * s * 2 ^ i) (y * s * 2 ^ i)) /
          (∑ i ∈ Finset.range octaves.toNat, p ^ i)) ∧
      (octave_noise_3d octaves p s x y z =
        (∑ i ∈ Finset.range octaves.toNat,
            p ^ i *
              raw_noise_3d (x * s * 2 ^ i) (y * s * 2 ^ i) (z * s * 2 ^ i)) /
          (∑ i ∈ Finset.range octaves.toNat, p ^ i)) ∧
      (octave_noise_4d (Real.sqrt 5) octaves p s x y z w =
        (∑ i ∈ Finset.range octaves.toNat,
            p ^ i *
              raw_noise_4d (Real.sqrt 5) (x * s * 2 ^ i) (y * s * 2 ^ i)
                (z * s * 2 ^ i) (w * s * 2 ^ i)) /
          (∑ i ∈ Finset.range octaves.toNat, p ^ i)) := by
  intro octaves _ p s x y z w
  refine ⟨?_, ?_, ?_⟩
  · simp only [octave_noise_2d, octaveLoop2_spec, zero_add, one_mul]
    congr 1
    refine Finset.sum_congr rfl fun i _ => ?_
    rw [← mul_assoc x s (2 ^ i), ← mul_assoc y s (2 ^ i)]
  · simp only [octave_noise_3d, octaveLoop3_spec, zero_add, one_mul]
    congr 1
    refine Finset.sum_congr rfl fun i _ => ?_
    rw [← mul_assoc x s (2 ^ i), ← mul_assoc y s (2 ^ i), ← mul_assoc z s (2 ^ i)]
  · simp only [octave_noise_4d, octaveLoop4_spec, zero_add, one_mul]
    congr 1
    refine Finset.sum_congr rfl fun i _ => ?_
    rw [← mul_assoc x s (2 ^ i), ← mul_assoc y s (2 ^ i),
      ← mul_assoc z s (2 ^ i), ← mul_assoc w s (2 ^ i)]

/-- C2 witness: the octave formula instantiated at `octaves = 2`,
`persistence = 1/2`, `scale = 1`. -/
theorem claim_C2_octave_formula_witness :
    (1 : ℤ) ≤ 2 ∧
      (octave_noise_2d (Real.sqrt 3) 2 (1/2) 1 0 0 =
        (∑ i ∈ Finset.range (2 : ℤ).toNat,
            (1/2 : ℝ) ^ i *
              raw_noise_2d (Real.sqrt 3) (0 * 1 * 2 ^ i) (0 * 1 * 2 ^ i)) /
          (∑ i ∈ Finset.range (2 : ℤ).toNat, (1/2 : ℝ) ^ i)) :=
  ⟨by decide, (claim_C2_octave_formula 2 (by decide) (1/2) 1 0 0 0 0).1⟩

/-- C7: the permutation table `_perm` has exactly 512 entries, every entry
lies in `[0, 255]`, and the entry at index `256 + k` equals the entry at
index `k` for every `k < 256`. -/
theorem claim_C7_perm_table :
    _perm.length = 512 ∧ (∀ e ∈ _perm, e ≤ 255) ∧
      ∀ k < 256, _perm.getD (256 + k) 0 = _perm.getD k 0 :=
  ⟨rfl, perm_entries_le, by decide⟩

/-- C8: every table access performed by the raw kernels is in bounds: the
masked lattice coordinate is in `[0, 255]`, every permutation value is in
`[0, 255]`, every inner chained permutation index (masked coordinate plus a
corner offset in `{0, 1}`) is at most 256, every outer chained permutation
index (masked coordinate plus a corner offset plus a nested permutation
value) is at most 511 and hence within the 512-entry table, and every
gradient index is reduced modulo 12 (2D/3D) or modulo 32 (4D) and hence
within the 12-entry `_grad3` table or the 32-entry `_grad4` table. -/
theorem claim_C8_in_bounds :
    _perm.length = 512 ∧ _grad3.length = 12 ∧ _grad4.length = 32 ∧
    (∀ n : ℤ, mask255 n ≤ 255) ∧
    (∀ idx : ℕ, permAt idx ≤ 255) ∧
    (∀ (n : ℤ) (d : ℕ), d ≤ 1 → mask255 n + d < 512) ∧
    (∀ (n : ℤ) (d idx : ℕ), d ≤ 1 → mask255 n + d + permAt idx < 512) ∧
    (∀ (i j : ℤ) (di dj : ℕ), gradIndex2 i j di dj < 12) ∧
    (∀ (i j k : ℤ) (di dj dk : ℕ), gradIndex3 i j k di dj dk < 12) ∧
    (∀ (i j k l : ℤ) (di dj dk dl : ℕ), gradIndex4 i j k l di dj dk dl < 32) := by
  refine ⟨rfl, rfl, rfl, mask255_le, permAt_le, ?_, ?_, ?_, ?_, ?_⟩
  · intro n d hd
    have := mask255_le n
    omega
  · intro n d idx hd
    have h1 := mask255_le n
    have h2 := permAt_le idx
    omega
  · intro i j di dj
    exact Nat.mod_lt _ (by norm_num)
  · intro i j k di dj dk
    exact Nat.mod_lt _ (by norm_num)
  · intro i j k l di dj dk dl
    exact Nat.mod_lt _ (by norm_num)

/-- C8 witness: the bounds instantiated at a concrete input with the corner
offset hypotheses discharged. -/
theorem claim_C8_in_bounds_witness :
    (1 : ℕ) ≤ 1 ∧ mask255 (-1) + 1 < 512 ∧ mask255 (-1) + 1 + permAt 0 < 512 :=
  ⟨by decide, claim_C8_in_bounds.2.2.2.2.2.1 (-1) 1 (by decide),
   claim_C8_in_bounds.2.2.2.2.2.2.1 (-1) 1 0 (by decide)⟩

/-- C9: in `raw_noise_4d` the 6-bit comparison index built from the six
pairwise comparisons of the fractional offsets always selects a row of the
`_simplex` table that is a permutation of `{0, 1, 2, 3}`; the all-zero
sentinel rows are never selected because they correspond to mutually
inconsistent comparison outcomes. -/
theorem claim_C9_simplex_row_valid :
    ∀ x0 y0 z0 w0 : ℝ,
      List.Perm (simplexRow (compIndex4 x0 y0 z0 w0)) [0, 1, 2, 3] := by
  intro x0 y0 z0 w0
  unfold compIndex4
  split_ifs <;> first | decide | (exfalso; linarith)

/-- C5 counterexample: at `octaves = 0` the 2D octave compositor does not
return an infinite or not-a-number value to the caller; the division by the
zero amplitude sum raises `ZeroDivisionError` (Python float division by
zero is an exception), modelled as `none`. -/
theorem claim_C5_counterexample :
    octave_noise_2d_checked (Real.sqrt 3) 0 (1/2) 1 0 0 = none := by
  simp [octave_noise_2d_checked, octaveLoop2]

/-- C5 amended: for every `octaves ≤ 0` the loop body never runs, so the
accumulated maximum-amplitude sum is 0 and the final division is a division
by zero; in Python this raises `ZeroDivisionError`, which propagates to the
caller as an exception rather than as an infinite or not-a-number value
(modelled: the checked compositors return `none`). -/
theorem claim_C5_amended :
    ∀ octaves : ℤ, octaves ≤ 0 → ∀ p s x y z w : ℝ,
      (octaveLoop2 (Real.sqrt 3) p x y octaves.toNat s 1 0 0).2 = 0 ∧
      octave_noise_2d_checked (Real.sqrt 3) octaves p s x y = none ∧
      (octaveLoop3 p x y z octaves.toNat s 1 0 0).2 = 0 ∧
      octave_noise_3d_checked octaves p s x y z = none ∧
      (octaveLoop4 (Real.sqrt 5) p x y z w octaves.toNat s 1 0 0).2 = 0 ∧
      octave_noise_4d_checked (Real.sqrt 5) octaves p s x y z w = none := by
  intro octaves h p s x y z w
  have ht : octaves.toNat = 0 := Int.toNat_of_nonpos h
  refine ⟨?_, ?_, ?_, ?_, ?_, ?_⟩ <;>
    simp [octave_noise_2d_checked, octave_noise_3d_checked,
      octave_noise_4d_checked, octaveLoop2, octaveLoop3, octaveLoop4, ht]

/-- C5 amended witness: the degenerate compositors evaluated at
`octaves = 0`. -/
theorem claim_C5_amended_witness :
    (0 : ℤ) ≤ 0 ∧
      octave_noise_2d_checked (Real.sqrt 3) 0 1 1 0 0 = none ∧
      octave_noise_3d_checked 0 (1 : ℝ) 1 0 0 0 = none ∧
      octave_noise_4d_checked (Real.sqrt 5) 0 1 1 0 0 0 0 = none :=
  ⟨by decide, (claim_C5_amended 0 (by decide) 1 1 0 0 0 0).2.1,
   (claim_C5_amended 0 (by decide) 1 1 0 0 0 0).2.2.2.1,
   (claim_C5_amended 0 (by decide) 1 1 0 0 0 0).2.2.2.2.2⟩

/-- C10 counterexample: with equal bounds `lo = hi = 5` but `octaves = 2`
and `persistence = -1` the amplitude sum is `1 + (-1) = 0`, so the scaled
2D octave call raises (`none`) instead of returning 5, although
`octaves ≥ 1`. -/
theorem claim_C10_counterexample :
    scaled_octave_noise_2d_checked (Real.sqrt 3) 2 (-1) 1 5 5 0 0 = none := by
  simp [scaled_octave_noise_2d_checked, octave_noise_2d_checked, octaveLoop2]

/-- C10 amended: the scaled raw variants with equal bounds return the bound
exactly, for every input; the scaled octave variants do so whenever the
underlying octave value is defined, i.e. whenever the accumulated
maximum-amplitude sum of the loop is nonzero (with a zero amplitude sum the
division raises instead, as the counterexample shows). -/
theorem claim_C10_amended :
    (∀ b x y : ℝ, scaled_raw_noise_2d (Real.sqrt 3) b b x y = b) ∧
    (∀ b x y z : ℝ, scaled_raw_noise_3d b b x y z = b) ∧
    (∀ b x y z w : ℝ, scaled_raw_noise_4d (Real.sqrt 5) b b x y z w = b) ∧
    (∀ (oct : ℤ) (p s b x y : ℝ),
      (octaveLoop2 (Real.sqrt 3) p x y oct.toNat s 1 0 0).2 ≠ 0 →
        scaled_octave_noise_2d_checked (Real.sqrt 3) oct p s b b x y = some b) ∧
    (∀ (oct : ℤ) (p s b x y z : ℝ),
      (octaveLoop3 p x y z oct.toNat s 1 0 0).2 ≠ 0 →
        scaled_octave_noise_3d_checked oct p s b b x y z = some b) ∧
    (∀ (oct : ℤ) (p s b x y z w : ℝ),
      (octaveLoop4 (Real.sqrt 5) p x y z w oct.toNat s 1 0 0).2 ≠ 0 →
        scaled_octave_noise_4d_checked (Real.sqrt 5) oct p s b b x y z w =
          some b) := by
  refine ⟨fun b x y => ?_, fun b x y z => ?_, fun b x y z w => ?_,
    fun oct p s b x y h => ?_, fun oct p s b x y z h => ?_,
    fun oct p s b x y z w h => ?_⟩
  · unfold scaled_raw_noise_2d; ring
  · unfold scaled_raw_noise_3d; ring
  · unfold scaled_raw_noise_4d; ring
  · simp only [scaled_octave_noise_2d_checked, octave_noise_2d_checked,
      if_neg h, Option.map_some]
    exact congrArg some (by ring)
  · simp only [scaled_octave_noise_3d_checked, octave_noise_3d_checked,
      if_neg h, Option.map_some]
    exact congrArg some (by ring)
  · simp only [scaled_octave_noise_4d_checked, octave_noise_4d_checked,
      if_neg h, Option.map_some]
    exact congrArg some (by ring)

/-- C10 amended witness: the scaled octave variants with equal bounds 3 at
`octaves = 1`, where the amplitude sum is 1. -/
theorem claim_C10_amended_witness :
    (octaveLoop2 (Real.sqrt 3) 1 0 0 (1 : ℤ).toNat 1 1 0 0).2 ≠ 0 ∧
      scaled_octave_noise_2d_checked (Real.sqrt 3) 1 1 1 3 3 0 0 = some 3 ∧
      (octaveLoop3 (1 : ℝ) 0 0 0 (1 : ℤ).toNat 1 1 0 0).2 ≠ 0 ∧
      scaled_octave_noise_3d_checked 1 (1 : ℝ) 1 3 3 0 0 0 = some 3 ∧
      (octaveLoop4 (Real.sqrt 5) 1 0 0 0 0 (1 : ℤ).toNat 1 1 0 0).2 ≠ 0 ∧
      scaled_octave_noise_4d_checked (Real.sqrt 5) 1 1 1 3 3 0 0 0 0 = some 3 := by
  have h2 : (octaveLoop2 (Real.sqrt 3) 1 0 0 (1 : ℤ).toNat 1 1 0 0).2 ≠ 0 := by
    simp [octaveLoop2]
  have h3 : (octaveLoop3 (1 : ℝ) 0 0 0 (1 : ℤ).toNat 1 1 0 0).2 ≠ 0 := by
    simp [octaveLoop3]
  have h4 : (octaveLoop4 (Real.sqrt 5) 1 0 0 0 0 (1 : ℤ).toNat 1 1 0 0).2 ≠ 0 := by
    simp [octaveLoop4]
  exact ⟨h2, claim_C10_amended.2.2.2.1 1 1 1 3 0 0 h2, h3,
    claim_C10_amended.2.2.2.2.1 1 1 1 3 0 0 0 h3, h4,
    claim_C10_amended.2.2.2.2.2 1 1 1 3 0 0 0 0 h4⟩

end SimplexNoise
